import Mathlib

/-!
Shallow embedding of the session-store API in `backend/routers/sessions.py`
(and its request/response boundary from `backend/main.py`'s FastAPI wiring).

The API is a thin CRUD layer over a relational store: the store is modelled
as lists of rows plus autoincrement counters; each HTTP handler becomes a
pure function from the store state (and request data) to a response together
with the successor state.  List-valued columns (`issuesFilter`,
`issuesDetected`) hold JSON text, modelled down to the character level so
that the serialisation round trip is a real theorem.
-/

/-- The closed set of recognised issue tags
(`IssueType = Literal[...]` in `sessions.py`). -/
inductive IssueType where
  | seoIssues
  | missingTitle
  | missingMetaDescription
  | missingH1
  | slowPerformance
deriving DecidableEq, Repr

/-- The string literal each `IssueType` member stands for. -/
def IssueType.tag : IssueType → String
  | .seoIssues => "seo-issues"
  | .missingTitle => "missing-title"
  | .missingMetaDescription => "missing-meta-description"
  | .missingH1 => "missing-h1"
  | .slowPerformance => "slow-performance"

/-- The tag as a character list, for the character-level JSON codec. -/
def IssueType.tagChars (i : IssueType) : List Char := i.tag.data

/-- All members of the closed tag set, in declaration order. -/
def allIssueTypes : List IssueType :=
  [.seoIssues, .missingTitle, .missingMetaDescription, .missingH1, .slowPerformance]

/-- Pydantic validation of one raw issue tag against the `IssueType` literal
set: unknown strings are rejected (`none`). -/
def parseIssueTag (s : String) : Option IssueType :=
  if s = "seo-issues" then some .seoIssues
  else if s = "missing-title" then some .missingTitle
  else if s = "missing-meta-description" then some .missingMetaDescription
  else if s = "missing-h1" then some .missingH1
  else if s = "slow-performance" then some .slowPerformance
  else none

/-- `ResultStatus = Literal["pending", "completed", "error"]`. -/
inductive ResultStatus where
  | pending
  | completed
  | error
deriving DecidableEq, Repr

/-- The string literal a `ResultStatus` member stands for. -/
def ResultStatus.toStr : ResultStatus → String
  | .pending => "pending"
  | .completed => "completed"
  | .error => "error"

/-- Validation of a stored status string against the `ResultStatus` literal
set (FastAPI response-model validation of the `status` field). -/
def parseResultStatus (s : String) : Option ResultStatus :=
  if s = "pending" then some .pending
  else if s = "completed" then some .completed
  else if s = "error" then some .error
  else none

/-- `Tier = float`: a numeric score.  The code only stores and returns tier
values, never computes with them, so rationals model them exactly. -/
abbrev Tier := Rat

/-! ### JSON codec for issue-tag lists

`sessions.py` stores issue lists with `json.dumps` and reads them back with
`json.loads` (the decoded value then passes through the `response_model`
validation against `list[IssueType]`).  We model the encoder as the exact
text `json.dumps` produces on a list of tag strings, and the decoder as a
character-level parser for that grammar which only accepts recognised tags
(`json.loads` composed with the response validation). -/

/-- Model of Python `json.dumps` on a list of issue tags: a JSON array of
strings with the default `", "` item separator,
e.g. `["seo-issues", "missing-h1"]`. -/
def dumpsIssues (l : List IssueType) : String :=
  "[" ++ String.intercalate ", " (l.map fun i => "\"" ++ i.tag ++ "\"") ++ "]"

/-- Strip a fixed expected character sequence off the front of the input,
returning the remainder, or `none` when the input does not start with it. -/
def stripLit : List Char → List Char → Option (List Char)
  | [], cs => some cs
  | _ :: _, [] => none
  | p :: ps, c :: cs => if c = p then stripLit ps cs else none

/-- Try each recognised tag in turn as the literal at the front of the
input; on a hit, return the tag and the remaining input. -/
def tryTags : List IssueType → List Char → Option (IssueType × List Char)
  | [], _ => none
  | t :: ts, cs =>
    match stripLit t.tagChars cs with
    | some rest => some (t, rest)
    | none => tryTags ts cs

/-- Parse one JSON string item `"<tag>"` holding a recognised tag. -/
def parseItem (cs : List Char) : Option (IssueType × List Char) :=
  match cs with
  | '"' :: rest =>
    match tryTags allIssueTypes rest with
    | some (i, rest2) =>
      match rest2 with
      | '"' :: rest3 => some (i, rest3)
      | _ => none
    | none => none
  | _ => none

/-- Parse the remainder of a JSON array after one item: either the closing
bracket, or `", "` followed by another item and the rest.  `fuel` bounds the
recursion (any value larger than the number of remaining items works). -/
def parseItems : Nat → List Char → Option (List IssueType)
  | 0, _ => none
  | fuel + 1, cs =>
    match cs with
    | [']'] => some []
    | ',' :: ' ' :: rest =>
      match parseItem rest with
      | some (i, rest2) => (parseItems fuel rest2).map (i :: ·)
      | none => none
    | _ => none

/-- Parse the inside of a JSON array (after the opening bracket). -/
def parseArray (cs : List Char) : Option (List IssueType) :=
  match cs with
  | [']'] => some []
  | _ =>
    match parseItem cs with
    | some (i, rest2) => (parseItems (rest2.length + 1) rest2).map (i :: ·)
    | none => none

/-- Character-level JSON decoder for an issue-tag array. -/
def loadsChars (cs : List Char) : Option (List IssueType) :=
  match cs with
  | '[' :: rest => parseArray rest
  | _ => none

/-- Model of Python `json.loads` on an issue-tag column, composed with the
`list[IssueType]` response validation: accepts exactly the texts
`dumpsIssues` produces and yields the decoded tag list; anything else is a
decode/validation failure (`none`). -/
def loadsIssues (s : String) : Option (List IssueType) :=
  loadsChars s.data

/-! #### Round-trip lemmas for the codec -/

/-- One encoded item, at character level. -/
def itemChars (i : IssueType) : List Char := '"' :: (i.tagChars ++ ['"'])

/-- The encoded tail of a JSON array after its first item. -/
def tailChars : List IssueType → List Char
  | [] => [']']
  | i :: t => ',' :: ' ' :: (itemChars i ++ tailChars t)

/-- The whole encoded array, at character level. -/
def dumpsChars : List IssueType → List Char
  | [] => ['[', ']']
  | i :: t => '[' :: (itemChars i ++ tailChars t)

/-- The text joining the items after the first one in the encoder. -/
def tailJoin (s : String) : List String → String
  | [] => ""
  | a :: as => s ++ a ++ tailJoin s as

/-- A literal-vs-literal early mismatch: the two sequences differ at some
position before either ends. -/
def mismatchAt : List Char → List Char → Bool
  | p :: ps, q :: qs => (p != q) || mismatchAt ps qs
  | _, _ => false

/-! ### Store model

The Prisma schema itself is not part of the repository sources; the row
shapes and creation defaults below follow the spec's data-model section. -/

/-- Modelled from the spec: the `Session` table row (the Prisma model is not
in the sources).  `id` is a server-assigned surrogate key, `created_at` a
server-assigned timestamp; `name` is optional with a placeholder display
value used when unset (the handler reads it through `getattr(session,
"name", "Untitled session")`). -/
structure SessionRow where
  id : Nat
  createdAt : Nat
  name : Option String
deriving DecidableEq, Repr

/-- Modelled from the spec: the `SessionSearch` table row (the Prisma model
is not in the sources).  `sessionId` is a unique foreign key;
`checkedWebsitesCount` defaults to 0 at creation and `lastSearchCursor`,
`completedAt` default to unset — all three are worker-owned. -/
structure SearchRow where
  id : Nat
  sessionId : Nat
  query : String
  issuesFilter : String
  maxResultsRequested : Int
  status : String
  checkedWebsitesCount : Int
  lastSearchCursor : Option String
  completedAt : Option Nat
deriving DecidableEq, Repr

/-- Modelled from the spec: the `SessionResult` table row (the Prisma model
is not in the sources).  Rows are created by the external worker; this API
only reads them and patches `tier`/`status`.  The `status` and
`issuesDetected` columns are stored text, validated only at the response
boundary. -/
structure ResultRow where
  id : Nat
  createdAt : Nat
  sessionId : Nat
  url : String
  domain : String
  pageCount : Int
  tier : Tier
  issuesDetected : Option String
  lighthouseJson : Option String
  contactEmail : Option String
  status : String
deriving DecidableEq, Repr

/-- The relational store: three tables plus autoincrement counters for the
server-assigned surrogate keys. -/
structure DB where
  sessions : List SessionRow
  searches : List SearchRow
  results : List ResultRow
  nextSessionId : Nat
  nextSearchId : Nat
deriving DecidableEq, Repr

/-- `find_unique(where={"id": sid})` on the session table. -/
def findSession (db : DB) (sid : Nat) : Option SessionRow :=
  db.sessions.find? fun s => s.id == sid

/-- The `include={"search": True}` relation lookup: the unique Search row
whose foreign key is the session's id. -/
def findSearchBySession (db : DB) (sid : Nat) : Option SearchRow :=
  db.searches.find? fun r => r.sessionId == sid

/-- `find_unique(where={"id": rid})` on the result table. -/
def findResult (db : DB) (rid : Nat) : Option ResultRow :=
  db.results.find? fun r => r.id == rid

/-- Insert an element into a list already sorted by `key` descending. -/
def insertByKeyDesc {α : Type} (key : α → Nat) (x : α) : List α → List α
  | [] => [x]
  | y :: ys => if key y ≤ key x then x :: y :: ys else y :: insertByKeyDesc key x ys

/-- `order={"createdAt": "desc"}`: sort rows by `key` descending. -/
def sortByKeyDesc {α : Type} (key : α → Nat) : List α → List α
  | [] => []
  | x :: xs => insertByKeyDesc key x (sortByKeyDesc key xs)

/-! ### Response models and errors -/

/-- `SessionRead` response model. -/
structure SessionRead where
  id : Nat
  created_at : Nat
  name : String
  is_configured : Bool
  is_completed : Bool
deriving DecidableEq, Repr

/-- `SessionSearchCreate` request model (post-validation). -/
structure SessionSearchCreate where
  query : String
  issues : List IssueType
  max_results : Int
deriving DecidableEq, Repr

/-- `SessionSearchRead` response model. -/
structure SessionSearchRead where
  session_id : Nat
  query : String
  issues : List IssueType
  max_results_requested : Int
  checked_websites_count : Int
  last_search_cursor : Option String
  is_completed : Bool
deriving DecidableEq, Repr

/-- `SessionResultRead` response model. -/
structure SessionResultRead where
  id : Nat
  created_at : Nat
  session_id : Nat
  url : String
  domain : String
  page_count : Int
  tier : Tier
  issues_detected : List IssueType
  lighthouse_json : Option String
  contact_email : Option String
  status : ResultStatus
deriving DecidableEq, Repr

/-- `SessionResultUpdate` request model (post-validation): both fields are
`Optional[...] = None`, so each is either a value or absent. -/
structure SessionResultUpdate where
  tier : Option Tier
  status : Option ResultStatus
deriving DecidableEq, Repr

/-- The error responses the routes can produce.  The first four are the
explicit 4xx paths (`HTTPException(404, ...)` and request validation); 
`internalError` stands for a 5xx from `json.loads` raising or the
`response_model` validation rejecting a stored column value. -/
inductive ApiError where
  | sessionNotFound
  | searchNotConfigured
  | resultNotFound
  | validationError
  | internalError
deriving DecidableEq, Repr

/-! ### Handlers

Each handler returns its response (or error) together with the successor
store state.  Read-only handlers return only the response. -/

/-- Render one session row to `SessionRead`, given the included search. -/
def renderSession (s : SessionRow) (search : Option SearchRow) : SessionRead :=
  { id := s.id
    created_at := s.createdAt
    name := s.name.getD "Untitled session"
    is_configured := search.isSome
    is_completed := search.elim false fun r => r.completedAt.isSome }

/-- `POST /sessions` (`create_session`): insert a fresh Session row with
server-assigned `id`/`created_at` and return it with both flags false.
`now` is the store's creation timestamp. -/
def create_session (db : DB) (now : Nat) : SessionRead × DB :=
  let row : SessionRow := { id := db.nextSessionId, createdAt := now, name := none }
  ({ id := row.id
     created_at := row.createdAt
     name := row.name.getD "Untitled session"
     is_configured := false
     is_completed := false },
   { db with
      sessions := db.sessions ++ [row]
      nextSessionId := db.nextSessionId + 1 })

/-- `GET /sessions` (`list_sessions`): page of sessions ordered by
`createdAt` descending, each joined with its Search to compute the two
flags. -/
def list_sessions (db : DB) (offset limit : Nat) : List SessionRead :=
  let page := ((sortByKeyDesc SessionRow.createdAt db.sessions).drop offset).take limit
  page.map fun s => renderSession s (findSearchBySession db s.id)

/-- Render one search row to `SessionSearchRead`; decodes the JSON issues
column, failing when it does not hold a valid tag array. -/
def renderSearch (search : SearchRow) : Except ApiError SessionSearchRead :=
  match loadsIssues search.issuesFilter with
  | none => .error .internalError
  | some issues =>
    .ok { session_id := search.sessionId
          query := search.query
          issues := issues
          max_results_requested := search.maxResultsRequested
          checked_websites_count := search.checkedWebsitesCount
          last_search_cursor := search.lastSearchCursor
          is_completed := search.completedAt.isSome }

/-- `PUT /sessions/{session_id}/search` (`upsert_session_search`): 404 when
the session is unknown; otherwise create the Search row (status "pending",
worker-owned fields at their creation defaults) when none exists, else
update only `query`, `issuesFilter`, `maxResultsRequested` on the existing
row; finally return the row, decoded. -/
def upsert_session_search (db : DB) (session_id : Nat) (body : SessionSearchCreate) :
    Except ApiError SessionSearchRead × DB :=
  match findSession db session_id with
  | none => (.error .sessionNotFound, db)
  | some session =>
    let issues_filter := dumpsIssues body.issues
    match findSearchBySession db session.id with
    | none =>
      let row : SearchRow :=
        { id := db.nextSearchId
          sessionId := session_id
          query := body.query
          issuesFilter := issues_filter
          maxResultsRequested := body.max_results
          status := "pending"
          checkedWebsitesCount := 0
          lastSearchCursor := none
          completedAt := none }
      (renderSearch row,
       { db with
          searches := db.searches ++ [row]
          nextSearchId := db.nextSearchId + 1 })
    | some sr =>
      let row : SearchRow :=
        { sr with
            query := body.query
            issuesFilter := issues_filter
            maxResultsRequested := body.max_results }
      (renderSearch row,
       { db with
          searches := db.searches.map fun s => if s.id = sr.id then row else s })

/-- `GET /sessions/{session_id}/search` (`get_session_search`): unique
lookup by `sessionId`; 404 when no Search row exists. -/
def get_session_search (db : DB) (session_id : Nat) :
    Except ApiError SessionSearchRead :=
  match findSearchBySession db session_id with
  | none => .error .searchNotConfigured
  | some search => renderSearch search

/-- Decode the `issuesDetected` column the way the handlers do:
`json.loads(result.issuesDetected) if result.issuesDetected else []` —
a missing or empty column reads as the empty sequence, anything else goes
through the JSON decoder. -/
def decodeIssuesDetected : Option String → Option (List IssueType)
  | none => some []
  | some s => if s = "" then some [] else loadsIssues s

/-- Render one result row to `SessionResultRead`; decodes the JSON issues
column and validates the stored status string at the response boundary. -/
def renderResult (r : ResultRow) : Except ApiError SessionResultRead :=
  match decodeIssuesDetected r.issuesDetected, parseResultStatus r.status with
  | some issues, some st =>
    .ok { id := r.id
          created_at := r.createdAt
          session_id := r.sessionId
          url := r.url
          domain := r.domain
          page_count := r.pageCount
          tier := r.tier
          issues_detected := issues
          lighthouse_json := r.lighthouseJson
          contact_email := r.contactEmail
          status := st }
  | _, _ => .error .internalError

/-- `GET /sessions/{session_id}/results` (`list_session_results`): page of
this session's results ordered by `createdAt` descending, decoded.  There
is no existence check on the session itself.  A decode failure on any row
is a 5xx (`none`). -/
def list_session_results (db : DB) (session_id : Nat) (offset limit : Nat) :
    Option (List SessionResultRead) :=
  let rows := ((sortByKeyDesc ResultRow.createdAt
      (db.results.filter fun r => r.sessionId == session_id)).drop offset).take limit
  rows.mapM fun r => (renderResult r).toOption

/-- `PATCH /sessions/{session_id}/results/{result_id}`
(`update_session_result`): 404 when the result is unknown or belongs to a
different session; then write exactly the fields present in the body (no
write at all when both are absent); finally return the row, decoded. -/
def update_session_result (db : DB) (session_id result_id : Nat)
    (body : SessionResultUpdate) : Except ApiError SessionResultRead × DB :=
  match findResult db result_id with
  | none => (.error .resultNotFound, db)
  | some result =>
    if result.sessionId ≠ session_id then (.error .resultNotFound, db)
    else
      let hasUpdate := body.tier.isSome || body.status.isSome
      if hasUpdate then
        let row : ResultRow :=
          { result with
              tier := body.tier.getD result.tier
              status := (body.status.map ResultStatus.toStr).getD result.status }
        (renderResult row,
         { db with results := db.results.map fun r => if r.id = result.id then row else r })
      else
        (renderResult result, db)

/-! ### Request boundary

FastAPI parses and validates the JSON body against the pydantic model
before the handler runs; a validation failure is a 422 response and the
handler (hence any store write) never happens. -/

/-- The raw JSON body of `PUT .../search` before validation: the issue tags
are still arbitrary strings. -/
structure RawSearchBody where
  query : String
  issues : List String
  max_results : Int
deriving DecidableEq, Repr

/-- Pydantic validation of `SessionSearchCreate`: every issue tag must be a
member of the closed `IssueType` set, else the whole body is rejected. -/
def validateSearchBody (raw : RawSearchBody) : Option SessionSearchCreate :=
  (raw.issues.mapM parseIssueTag).map fun issues =>
    { query := raw.query, issues := issues, max_results := raw.max_results }

/-- The full `PUT .../search` route: body validation, then the handler. -/
def putSearchRoute (db : DB) (session_id : Nat) (raw : RawSearchBody) :
    Except ApiError SessionSearchRead × DB :=
  match validateSearchBody raw with
  | none => (.error .validationError, db)
  | some body => upsert_session_search db session_id body

/-- A field of a JSON request body: absent, explicitly `null`, or a value. -/
inductive JsonField (α : Type) where
  | absent
  | null
  | value (v : α)
deriving DecidableEq, Repr

/-- The raw JSON body of `PATCH .../results/{rid}` before validation. -/
structure RawResultUpdate where
  tier : JsonField Tier
  status : JsonField ResultStatus
deriving DecidableEq, Repr

/-- Pydantic parsing of an `Optional[T] = None` field: an absent field and
an explicit `null` both become `None`; a value stays. -/
def JsonField.toOption {α : Type} : JsonField α → Option α
  | .absent => none
  | .null => none
  | .value v => some v

/-- Pydantic validation of `SessionResultUpdate` from the raw body. -/
def parseResultUpdate (raw : RawResultUpdate) : SessionResultUpdate :=
  { tier := raw.tier.toOption, status := raw.status.toOption }

/-- The full `PATCH .../results/{rid}` route: body validation, then the
handler. -/
def patchResultRoute (db : DB) (session_id result_id : Nat)
    (raw : RawResultUpdate) : Except ApiError SessionResultRead × DB :=
  update_session_result db session_id result_id (parseResultUpdate raw)

/-! ### Concrete store fixtures (used by the witnesses) -/

/-- A configured, not-yet-completed search row for session 1. -/
def wSearchRow : SearchRow :=
  { id := 1
    sessionId := 1
    query := "plumbers"
    issuesFilter := dumpsIssues [.missingTitle]
    maxResultsRequested := 20
    status := "pending"
    checkedWebsitesCount := 0
    lastSearchCursor := none
    completedAt := none }

/-- A pending worker-produced result row for session 1. -/
def wResultRow : ResultRow :=
  { id := 5
    createdAt := 12
    sessionId := 1
    url := "https://example.com"
    domain := "example.com"
    pageCount := 3
    tier := 2
    issuesDetected := none
    lighthouseJson := none
    contactEmail := none
    status := "pending" }

/-- The session row owning the fixture search and result. -/
def wSessionRow : SessionRow :=
  { id := 1, createdAt := 10, name := none }

/-- A small store: one session, configured, with one pending result. -/
def wDB : DB :=
  { sessions := [wSessionRow]
    searches := [wSearchRow]
    results := [wResultRow]
    nextSessionId := 2
    nextSearchId := 2 }

/-- A second upsert body, differing from the stored configuration and
containing a duplicated tag. -/
def wBody : SessionSearchCreate :=
  { query := "roofers", issues := [.missingH1, .missingH1], max_results := 5 }


/-! ### Codec round-trip lemmas -/

theorem intercalate_go_spec (s : String) :
    ∀ (as : List String) (acc : String),
      String.intercalate.go acc s as = acc ++ tailJoin s as := by
  intro as
  induction as with
  | nil => intro acc; simp [String.intercalate.go, tailJoin]
  | cons a as ih =>
    intro acc
    show String.intercalate.go (acc ++ s ++ a) s as = acc ++ tailJoin s (a :: as)
    rw [ih]
    simp [tailJoin, String.append_assoc]

theorem intercalate_spec (s : String) (a : String) (as : List String) :
    String.intercalate s (a :: as) = a ++ tailJoin s as := by
  show String.intercalate.go a s as = a ++ tailJoin s as
  exact intercalate_go_spec s as a

theorem tailJoin_data (t : List IssueType) :
    (tailJoin ", " (t.map fun i => "\"" ++ i.tag ++ "\"")).data ++ [']'] =
      tailChars t := by
  induction t with
  | nil => rfl
  | cons j t ih =>
    show (", " ++ ("\"" ++ j.tag ++ "\"") ++
        tailJoin ", " (t.map fun i => "\"" ++ i.tag ++ "\"")).data ++ [']'] =
      ',' :: ' ' :: (itemChars j ++ tailChars t)
    rw [← ih]
    simp [String.data_append, itemChars, IssueType.tagChars]

theorem dumpsIssues_data (l : List IssueType) :
    (dumpsIssues l).data = dumpsChars l := by
  cases l with
  | nil => rfl
  | cons i t =>
    show ("[" ++ String.intercalate ", "
        (((i :: t).map fun j => "\"" ++ j.tag ++ "\"")) ++ "]").data =
      '[' :: (itemChars i ++ tailChars t)
    rw [List.map_cons, intercalate_spec, ← tailJoin_data t]
    simp [String.data_append, itemChars, IssueType.tagChars]

theorem stripLit_self (p : List Char) : ∀ cs, stripLit p (p ++ cs) = some cs := by
  induction p with
  | nil => intro cs; rfl
  | cons c p ih => intro cs; simp [stripLit, ih]

theorem stripLit_none_of_mismatch :
    ∀ (p q x : List Char), mismatchAt p q = true → stripLit p (q ++ x) = none := by
  intro p
  induction p with
  | nil => intro q x h; cases q <;> simp [mismatchAt] at h
  | cons c p ih =>
    intro q x h
    cases q with
    | nil => simp [mismatchAt] at h
    | cons d q =>
      simp only [mismatchAt, Bool.or_eq_true, bne_iff_ne] at h
      by_cases hd : d = c
      · subst hd
        rcases h with h | h
        · exact absurd rfl h
        · simpa [stripLit] using ih q x h
      · simp [stripLit, hd]

theorem tag_mismatch (t i : IssueType) (h : t ≠ i) :
    mismatchAt t.tagChars i.tagChars = true := by
  cases t <;> cases i <;> first
    | exact absurd rfl h
    | decide

theorem tryTags_hit :
    ∀ (ts : List IssueType) (i : IssueType) (cs rest : List Char), i ∈ ts →
      stripLit i.tagChars cs = some rest →
      (∀ t, t ≠ i → stripLit t.tagChars cs = none) →
      tryTags ts cs = some (i, rest) := by
  intro ts
  induction ts with
  | nil => intro i cs rest hmem; exact absurd hmem (List.not_mem_nil i)
  | cons t ts ih =>
    intro i cs rest hmem hhit hmiss
    by_cases ht : t = i
    · subst ht
      simp [tryTags, hhit]
    · have : stripLit t.tagChars cs = none := hmiss t ht
      have hmem' : i ∈ ts := by
        cases hmem with
        | head => exact absurd rfl ht
        | tail _ h => exact h
      simp [tryTags, this, ih i cs rest hmem' hhit hmiss]

theorem parseItem_encode (i : IssueType) (x : List Char) :
    parseItem (itemChars i ++ x) = some (i, x) := by
  have hshape : itemChars i ++ x = '"' :: (i.tagChars ++ ('"' :: x)) := by
    simp [itemChars]
  rw [hshape]
  have hhit : stripLit i.tagChars (i.tagChars ++ ('"' :: x)) = some ('"' :: x) :=
    stripLit_self _ _
  have hmiss : ∀ t, t ≠ i →
      stripLit t.tagChars (i.tagChars ++ ('"' :: x)) = none := fun t ht =>
    stripLit_none_of_mismatch _ _ _ (tag_mismatch t i ht)
  have hmem : i ∈ allIssueTypes := by cases i <;> simp [allIssueTypes]
  simp [parseItem, tryTags_hit allIssueTypes i _ _ hmem hhit hmiss]

theorem parseItems_tail :
    ∀ (l : List IssueType) (fuel : Nat), l.length < fuel →
      parseItems fuel (tailChars l) = some l := by
  intro l
  induction l with
  | nil =>
    intro fuel hfuel
    cases fuel with
    | zero => exact absurd hfuel (by simp)
    | succ f => rfl
  | cons i t ih =>
    intro fuel hfuel
    cases fuel with
    | zero => exact absurd hfuel (by simp)
    | succ f =>
      have hlt : t.length < f := by
        simpa [List.length_cons, Nat.succ_lt_succ_iff] using hfuel
      show parseItems (f + 1) (',' :: ' ' :: (itemChars i ++ tailChars t)) = some (i :: t)
      simp [parseItems, parseItem_encode, ih f hlt]

theorem tailChars_length_ge (l : List IssueType) : l.length ≤ (tailChars l).length := by
  induction l with
  | nil => simp [tailChars]
  | cons i t ih =>
    simp only [tailChars, List.length_cons, List.length_append]
    omega

theorem parseArray_encode_cons (i : IssueType) (t : List IssueType) :
    parseArray (itemChars i ++ tailChars t) = some (i :: t) := by
  have hshape : itemChars i ++ tailChars t =
      '"' :: ((i.tagChars ++ ['"']) ++ tailChars t) := by
    simp [itemChars]
  have harr : parseArray ('"' :: ((i.tagChars ++ ['"']) ++ tailChars t)) =
      match parseItem ('"' :: ((i.tagChars ++ ['"']) ++ tailChars t)) with
      | some (j, rest2) => (parseItems (rest2.length + 1) rest2).map (j :: ·)
      | none => none := rfl
  rw [hshape, harr, ← hshape, parseItem_encode]
  have : t.length < (tailChars t).length + 1 :=
    Nat.lt_succ_of_le (tailChars_length_ge t)
  simp [parseItems_tail t _ this]

/-- Round trip: decoding the encoder's output recovers the written tag
sequence exactly — same tags, same multiplicity, same order. -/
theorem loads_dumps (l : List IssueType) :
    loadsIssues (dumpsIssues l) = some l := by
  rw [loadsIssues, dumpsIssues_data]
  cases l with
  | nil => rfl
  | cons i t =>
    show loadsChars ('[' :: (itemChars i ++ tailChars t)) = some (i :: t)
    have : loadsChars ('[' :: (itemChars i ++ tailChars t)) =
        parseArray (itemChars i ++ tailChars t) := rfl
    rw [this, parseArray_encode_cons]

/-! ### Shared store lemmas -/

theorem findSession_id {db : DB} {sid : Nat} {s : SessionRow}
    (h : findSession db sid = some s) : s.id = sid := by
  have := List.find?_some h
  simpa using this

theorem findSearchBySession_sessionId {db : DB} {sid : Nat} {r : SearchRow}
    (h : findSearchBySession db sid = some r) : r.sessionId = sid := by
  have := List.find?_some h
  simpa using this

theorem findResult_id {db : DB} {rid : Nat} {r : ResultRow}
    (h : findResult db rid = some r) : r.id = rid := by
  have := List.find?_some h
  simpa using this

/-- Updating, by key, the first row a predicate finds: after mapping the
update over the list, the predicate finds the updated row (provided the
replacement still satisfies the predicate). -/
theorem find?_map_update {α : Type} (p : α → Bool) (idf : α → Nat) :
    ∀ (l : List α) (sr row' : α), l.find? p = some sr → p row' = true →
      (l.map fun s => if idf s = idf sr then row' else s).find? p = some row' := by
  intro l
  induction l with
  | nil => intro sr row' h; simp at h
  | cons a l ih =>
    intro sr row' h hp
    rw [List.find?_cons] at h
    cases ha : p a with
    | true =>
      rw [ha] at h
      have hsr : sr = a := by cases h; rfl
      subst hsr
      simp [List.find?_cons, hp]
    | false =>
      rw [ha] at h
      by_cases hid : idf a = idf sr
      · simp [List.map_cons, hid, List.find?_cons, hp]
      · simp only [List.map_cons, if_neg hid]
        rw [List.find?_cons, ha]
        exact ih sr row' h hp

/-- Appending a row that satisfies the predicate to a list where nothing
does: the predicate finds the new row. -/
theorem find?_append_new {α : Type} (p : α → Bool) (l : List α) (row : α)
    (hl : l.find? p = none) (hp : p row = true) :
    (l ++ [row]).find? p = some row := by
  rw [List.find?_append, hl]
  simp [List.find?_cons, hp]

theorem mem_insertByKeyDesc {α : Type} (key : α → Nat) (x a : α) :
    ∀ l : List α, a ∈ insertByKeyDesc key x l ↔ a = x ∨ a ∈ l := by
  intro l
  induction l with
  | nil => simp [insertByKeyDesc]
  | cons y ys ih =>
    by_cases h : key y ≤ key x
    · simp [insertByKeyDesc, h]
    · simp [insertByKeyDesc, h, ih]
      tauto

theorem mem_sortByKeyDesc {α : Type} (key : α → Nat) (a : α) :
    ∀ l : List α, a ∈ sortByKeyDesc key l ↔ a ∈ l := by
  intro l
  induction l with
  | nil => simp [sortByKeyDesc]
  | cons x xs ih =>
    simp [sortByKeyDesc, mem_insertByKeyDesc, ih]

theorem length_insertByKeyDesc {α : Type} (key : α → Nat) (x : α) :
    ∀ l : List α, (insertByKeyDesc key x l).length = l.length + 1 := by
  intro l
  induction l with
  | nil => rfl
  | cons y ys ih =>
    by_cases h : key y ≤ key x
    · simp [insertByKeyDesc, h]
    · simp [insertByKeyDesc, h, ih]

theorem length_sortByKeyDesc {α : Type} (key : α → Nat) :
    ∀ l : List α, (sortByKeyDesc key l).length = l.length := by
  intro l
  induction l with
  | nil => rfl
  | cons x xs ih =>
    simp [sortByKeyDesc, length_insertByKeyDesc, ih]

/-- `mapM` over `Option` fails as soon as any element fails. -/
theorem mapM_eq_none_of_mem {α β : Type} (f : α → Option β) :
    ∀ (l : List α) (x : α), x ∈ l → f x = none → l.mapM f = none := by
  intro l
  induction l with
  | nil => intro x hx; exact absurd hx (List.not_mem_nil x)
  | cons a l ih =>
    intro x hx hfx
    cases hx with
    | head => rw [List.mapM_cons, hfx]; rfl
    | tail _ h =>
      cases hfa : f a with
      | none => rw [List.mapM_cons, hfa]; rfl
      | some b => rw [List.mapM_cons, hfa, ih x h hfx]; rfl

/-! ### Claim theorems -/

/-- C8: for every session that has no Search row, `GET .../search` fails
with the `SearchNotConfigured` (404) error — it never returns an empty or
default Search object. -/
theorem C8_get_search_not_configured (db : DB) (sid : Nat)
    (h : findSearchBySession db sid = none) :
    get_session_search db sid = .error .searchNotConfigured := by
  simp [get_session_search, h]

theorem C8_get_search_not_configured_witness :
    findSearchBySession wDB 99 = none ∧
      get_session_search wDB 99 = .error .searchNotConfigured :=
  ⟨by decide, C8_get_search_not_configured wDB 99 (by decide)⟩

/-- C5: for every patch request whose result id is unknown, or known but
stored under a different session than the path's, the handler fails with
the `ResultNotFound` (404) error and leaves the store untouched. -/
theorem C5_patch_wrong_session_not_found (db : DB) (sid rid : Nat)
    (body : SessionResultUpdate)
    (h : findResult db rid = none ∨
      ∃ r, findResult db rid = some r ∧ r.sessionId ≠ sid) :
    update_session_result db sid rid body = (.error .resultNotFound, db) := by
  rcases h with h | ⟨r, hr, hne⟩
  · simp [update_session_result, h]
  · simp [update_session_result, hr, hne]

theorem C5_patch_wrong_session_not_found_witness :
    (findResult wDB 5 = none ∨
      ∃ r, findResult wDB 5 = some r ∧ r.sessionId ≠ 2) ∧
    update_session_result wDB 2 5 { tier := none, status := some .completed } =
      (.error .resultNotFound, wDB) :=
  ⟨Or.inr ⟨wResultRow, by decide, by decide⟩,
   C5_patch_wrong_session_not_found wDB 2 5 _
     (Or.inr ⟨wResultRow, by decide, by decide⟩)⟩

/-- C9: creating a session returns a row whose id differs from every
existing session's id and whose two flags are false; the id-freshness
invariant on the store is preserved, so later creations stay distinct. -/
theorem C9_create_session_fresh (db : DB) (now : Nat)
    (h : ∀ s ∈ db.sessions, s.id < db.nextSessionId) :
    (create_session db now).1.is_configured = false ∧
    (create_session db now).1.is_completed = false ∧
    (∀ s ∈ db.sessions, s.id ≠ (create_session db now).1.id) ∧
    (∀ s ∈ (create_session db now).2.sessions,
      s.id < (create_session db now).2.nextSessionId) := by
  refine ⟨rfl, rfl, ?_, ?_⟩
  · intro s hs
    exact Nat.ne_of_lt (h s hs)
  · intro s hs
    simp only [create_session, List.mem_append, List.mem_singleton] at hs
    rcases hs with hs | hs
    · exact Nat.lt_succ_of_lt (h s hs)
    · subst hs
      exact Nat.lt_succ_self _

theorem C9_create_session_fresh_witness :
    (∀ s ∈ wDB.sessions, s.id < wDB.nextSessionId) ∧
    ((create_session wDB 11).1.is_configured = false ∧
     (create_session wDB 11).1.is_completed = false ∧
     (∀ s ∈ wDB.sessions, s.id ≠ (create_session wDB 11).1.id) ∧
     (∀ s ∈ (create_session wDB 11).2.sessions,
       s.id < (create_session wDB 11).2.nextSessionId)) :=
  ⟨by decide, C9_create_session_fresh wDB 11 (by decide)⟩

/-- C10: in the patch-result body, a field set to JSON `null` is
indistinguishable from an omitted field — the route's outcome is identical
— and a body of two `null`s parses exactly like the empty body, so neither
`tier` nor `status` can be cleared through this operation. -/
theorem C10_null_field_equals_absent (db : DB) (sid rid : Nat) :
    (∀ sf : JsonField ResultStatus,
      patchResultRoute db sid rid { tier := .null, status := sf } =
        patchResultRoute db sid rid { tier := .absent, status := sf }) ∧
    (∀ tf : JsonField Tier,
      patchResultRoute db sid rid { tier := tf, status := .null } =
        patchResultRoute db sid rid { tier := tf, status := .absent }) ∧
    parseResultUpdate { tier := .null, status := .null } =
      { tier := none, status := none } :=
  ⟨fun _ => rfl, fun _ => rfl, rfl⟩

/-- C4: an upsert body containing any issue tag outside the closed
recognised set fails request validation; the handler never runs and the
store is unchanged. -/
theorem C4_unknown_tag_rejected (db : DB) (sid : Nat) (raw : RawSearchBody)
    (h : ∃ t ∈ raw.issues, parseIssueTag t = none) :
    putSearchRoute db sid raw = (.error .validationError, db) := by
  rcases h with ⟨t, ht, hp⟩
  have hnone : raw.issues.mapM parseIssueTag = none :=
    mapM_eq_none_of_mem parseIssueTag raw.issues t ht hp
  unfold putSearchRoute validateSearchBody
  rw [hnone]
  rfl

theorem C4_unknown_tag_rejected_witness :
    (∃ t ∈ ["broken-links"], parseIssueTag t = none) ∧
    putSearchRoute wDB 1 { query := "plumbers", issues := ["broken-links"], max_results := 20 } =
      (.error .validationError, wDB) :=
  ⟨⟨"broken-links", by decide, by decide⟩,
   C4_unknown_tag_rejected wDB 1 _ ⟨"broken-links", by decide, by decide⟩⟩

/-- C2: patching an existing result of the right session writes exactly the
fields present in the body — a status-only body leaves `tier` (and every
other column) as in the stored row, a tier-only body leaves `status`
untouched, and an empty body performs no write at all and returns the
current row. -/
theorem C2_patch_partial_update (db : DB) (sid rid : Nat) (r : ResultRow)
    (hr : findResult db rid = some r) (hs : r.sessionId = sid) :
    (∀ st : ResultStatus,
      update_session_result db sid rid { tier := none, status := some st } =
        (renderResult { r with status := st.toStr },
         { db with results := db.results.map fun x =>
            if x.id = r.id then { r with status := st.toStr } else x })) ∧
    (∀ t : Tier,
      update_session_result db sid rid { tier := some t, status := none } =
        (renderResult { r with tier := t },
         { db with results := db.results.map fun x =>
            if x.id = r.id then { r with tier := t } else x })) ∧
    update_session_result db sid rid { tier := none, status := none } =
      (renderResult r, db) := by
  refine ⟨fun st => ?_, fun t => ?_, ?_⟩ <;>
    simp [update_session_result, hr, hs]

theorem C2_patch_partial_update_witness :
    findResult wDB 5 = some wResultRow ∧ wResultRow.sessionId = 1 ∧
    update_session_result wDB 1 5 { tier := none, status := none } =
      (renderResult wResultRow, wDB) :=
  ⟨by decide, by decide,
   (C2_patch_partial_update wDB 1 5 wResultRow (by decide) (by decide)).2.2⟩

/-- C1: upserting the search of a session that already has one never adds a
second Search row — the stored row keeps its identity and its worker-owned
columns (`checkedWebsitesCount`, `lastSearchCursor`, `completedAt`) and only
`query`, `issuesFilter`, `maxResultsRequested` are replaced; a first upsert
creates the single row with those worker-owned columns at their creation
defaults. -/
theorem C1_upsert_frame (db : DB) (sid : Nat) (body : SessionSearchCreate)
    (session : SessionRow) (hSess : findSession db sid = some session) :
    (∀ sr, findSearchBySession db sid = some sr →
      ((upsert_session_search db sid body).2.searches.length = db.searches.length ∧
       findSearchBySession (upsert_session_search db sid body).2 sid =
         some { sr with query := body.query,
                        issuesFilter := dumpsIssues body.issues,
                        maxResultsRequested := body.max_results })) ∧
    (findSearchBySession db sid = none →
      ((upsert_session_search db sid body).2.searches.length = db.searches.length + 1 ∧
       ∃ row, findSearchBySession (upsert_session_search db sid body).2 sid = some row ∧
         row.query = body.query ∧ row.issuesFilter = dumpsIssues body.issues ∧
         row.maxResultsRequested = body.max_results ∧ row.checkedWebsitesCount = 0 ∧
         row.lastSearchCursor = none ∧ row.completedAt = none)) := by
  have hid : session.id = sid := findSession_id hSess
  constructor
  · intro sr hsr
    have hdb2 : (upsert_session_search db sid body).2 =
        { db with searches := db.searches.map fun s =>
            if s.id = sr.id then
              { sr with query := body.query,
                        issuesFilter := dumpsIssues body.issues,
                        maxResultsRequested := body.max_results }
            else s } := by
      simp only [upsert_session_search, hSess, hid, hsr]
    rw [hdb2]
    constructor
    · simp
    · have hsr' : db.searches.find? (fun r => r.sessionId == sid) = some sr := hsr
      have hp : (fun r : SearchRow => r.sessionId == sid)
          { sr with query := body.query,
                    issuesFilter := dumpsIssues body.issues,
                    maxResultsRequested := body.max_results } = true := by
        simpa using findSearchBySession_sessionId hsr
      exact find?_map_update (fun r => r.sessionId == sid) SearchRow.id
        db.searches sr _ hsr' hp
  · intro hnone
    have hdb2 : (upsert_session_search db sid body).2 =
        { db with
            searches := db.searches ++
              [{ id := db.nextSearchId, sessionId := sid,
                 query := body.query,
                 issuesFilter := dumpsIssues body.issues,
                 maxResultsRequested := body.max_results,
                 status := "pending", checkedWebsitesCount := 0,
                 lastSearchCursor := none, completedAt := none }],
            nextSearchId := db.nextSearchId + 1 } := by
      simp only [upsert_session_search, hSess, hid, hnone]
    rw [hdb2]
    constructor
    · simp
    · refine ⟨{ id := db.nextSearchId, sessionId := sid, query := body.query,
                issuesFilter := dumpsIssues body.issues,
                maxResultsRequested := body.max_results, status := "pending",
                checkedWebsitesCount := 0, lastSearchCursor := none,
                completedAt := none }, ?_, rfl, rfl, rfl, rfl, rfl, rfl⟩
      have hnone' : db.searches.find? (fun r => r.sessionId == sid) = none := hnone
      exact find?_append_new (fun r => r.sessionId == sid) db.searches
        { id := db.nextSearchId, sessionId := sid, query := body.query,
          issuesFilter := dumpsIssues body.issues,
          maxResultsRequested := body.max_results, status := "pending",
          checkedWebsitesCount := 0, lastSearchCursor := none,
          completedAt := none } hnone' (by simp)

theorem C1_upsert_frame_witness :
    findSession wDB 1 = some wSessionRow ∧
    findSearchBySession wDB 1 = some wSearchRow ∧
    findSearchBySession (upsert_session_search wDB 1 wBody).2 1 =
      some { wSearchRow with query := "roofers",
                             issuesFilter := dumpsIssues [.missingH1, .missingH1],
                             maxResultsRequested := 5 } :=
  ⟨by decide, by decide,
   ((C1_upsert_frame wDB 1 wBody wSessionRow (by decide)).1 wSearchRow (by decide)).2⟩

/-- Rendering a search row whose issues column holds an encoded tag list
succeeds and returns exactly that list. -/
theorem renderSearch_issues (search : SearchRow) (is : List IssueType)
    (h : search.issuesFilter = dumpsIssues is) :
    renderSearch search = .ok
      { session_id := search.sessionId, query := search.query, issues := is,
        max_results_requested := search.maxResultsRequested,
        checked_websites_count := search.checkedWebsitesCount,
        last_search_cursor := search.lastSearchCursor,
        is_completed := search.completedAt.isSome } := by
  simp [renderSearch, h, loads_dumps]

/-- C6: the issue-tag sequence accepted by an upsert — duplicates, order
and all — comes back identically both in the upsert's own response and in
the immediately following read of the stored Search. -/
theorem C6_issue_sequence_round_trip (db : DB) (sid : Nat)
    (body : SessionSearchCreate) (session : SessionRow)
    (hSess : findSession db sid = some session) :
    (∃ resp, (upsert_session_search db sid body).1 = .ok resp ∧
      resp.issues = body.issues) ∧
    (∃ g, get_session_search (upsert_session_search db sid body).2 sid = .ok g ∧
      g.issues = body.issues) := by
  have hid : session.id = sid := findSession_id hSess
  cases hsr : findSearchBySession db sid with
  | none =>
    have hpair : upsert_session_search db sid body =
        (renderSearch { id := db.nextSearchId, sessionId := sid,
                        query := body.query,
                        issuesFilter := dumpsIssues body.issues,
                        maxResultsRequested := body.max_results,
                        status := "pending", checkedWebsitesCount := 0,
                        lastSearchCursor := none, completedAt := none },
         { db with
            searches := db.searches ++
              [{ id := db.nextSearchId, sessionId := sid,
                 query := body.query,
                 issuesFilter := dumpsIssues body.issues,
                 maxResultsRequested := body.max_results,
                 status := "pending", checkedWebsitesCount := 0,
                 lastSearchCursor := none, completedAt := none }],
            nextSearchId := db.nextSearchId + 1 }) := by
      simp only [upsert_session_search, hSess, hid, hsr]
    have hnone' : db.searches.find? (fun r => r.sessionId == sid) = none := hsr
    have h2 : findSearchBySession (upsert_session_search db sid body).2 sid =
        some { id := db.nextSearchId, sessionId := sid,
               query := body.query,
               issuesFilter := dumpsIssues body.issues,
               maxResultsRequested := body.max_results,
               status := "pending", checkedWebsitesCount := 0,
               lastSearchCursor := none, completedAt := none } := by
      rw [hpair]
      exact find?_append_new (fun r => r.sessionId == sid) db.searches
        { id := db.nextSearchId, sessionId := sid, query := body.query,
          issuesFilter := dumpsIssues body.issues,
          maxResultsRequested := body.max_results, status := "pending",
          checkedWebsitesCount := 0, lastSearchCursor := none,
          completedAt := none } hnone' (by simp)
    have hr := renderSearch_issues _ body.issues
      (rfl : ({ id := db.nextSearchId, sessionId := sid,
                query := body.query,
                issuesFilter := dumpsIssues body.issues,
                maxResultsRequested := body.max_results,
                status := "pending", checkedWebsitesCount := 0,
                lastSearchCursor := none, completedAt := none } : SearchRow).issuesFilter
            = dumpsIssues body.issues)
    exact ⟨⟨_, by rw [hpair]; exact hr, rfl⟩,
           ⟨_, by simp only [get_session_search, h2]; exact hr, rfl⟩⟩
  | some sr =>
    have hp : (fun r : SearchRow => r.sessionId == sid)
        { sr with query := body.query,
                  issuesFilter := dumpsIssues body.issues,
                  maxResultsRequested := body.max_results } = true := by
      simpa using findSearchBySession_sessionId hsr
    have hpair : upsert_session_search db sid body =
        (renderSearch { sr with query := body.query,
                                issuesFilter := dumpsIssues body.issues,
                                maxResultsRequested := body.max_results },
         { db with searches := db.searches.map fun s =>
            if s.id = sr.id then
              { sr with query := body.query,
                        issuesFilter := dumpsIssues body.issues,
                        maxResultsRequested := body.max_results }
            else s }) := by
      simp only [upsert_session_search, hSess, hid, hsr]
    have hsr' : db.searches.find? (fun r => r.sessionId == sid) = some sr := hsr
    have h2 : findSearchBySession (upsert_session_search db sid body).2 sid =
        some { sr with query := body.query,
                       issuesFilter := dumpsIssues body.issues,
                       maxResultsRequested := body.max_results } := by
      rw [hpair]
      exact find?_map_update (fun r => r.sessionId == sid) SearchRow.id
        db.searches sr _ hsr' hp
    have hr := renderSearch_issues
      { sr with query := body.query,
                issuesFilter := dumpsIssues body.issues,
                maxResultsRequested := body.max_results } body.issues rfl
    exact ⟨⟨_, by rw [hpair]; exact hr, rfl⟩,
           ⟨_, by simp only [get_session_search, h2]; exact hr, rfl⟩⟩

theorem C6_issue_sequence_round_trip_witness :
    findSession wDB 1 = some wSessionRow ∧
    ((∃ resp, (upsert_session_search wDB 1 wBody).1 = .ok resp ∧
       resp.issues = wBody.issues) ∧
     (∃ g, get_session_search (upsert_session_search wDB 1 wBody).2 1 = .ok g ∧
       g.issues = wBody.issues)) :=
  ⟨by decide, C6_issue_sequence_round_trip wDB 1 wBody wSessionRow (by decide)⟩

/-- C3: each session returned by the listing has `is_configured` true
exactly when a Search row exists for it, and `is_completed` true exactly
when such a row exists and carries a completion timestamp. -/
theorem C3_list_sessions_flags (db : DB) (offset limit : Nat) (x : SessionRead)
    (hx : x ∈ list_sessions db offset limit) :
    (x.is_configured = true ↔ ∃ r, findSearchBySession db x.id = some r) ∧
    (x.is_completed = true ↔ ∃ r, findSearchBySession db x.id = some r ∧
      r.completedAt.isSome) := by
  simp only [list_sessions, List.mem_map] at hx
  obtain ⟨s, hmem, hxeq⟩ := hx
  subst hxeq
  cases hfind : findSearchBySession db s.id with
  | none => simp [renderSession, hfind]
  | some r => simp [renderSession, hfind]

theorem C3_list_sessions_flags_witness :
    (renderSession wSessionRow (some wSearchRow) ∈ list_sessions wDB 0 50) ∧
    ((renderSession wSessionRow (some wSearchRow)).is_configured = true ↔
      ∃ r, findSearchBySession wDB (renderSession wSessionRow (some wSearchRow)).id = some r) :=
  ⟨by decide,
   (C3_list_sessions_flags wDB 0 50 (renderSession wSessionRow (some wSearchRow))
     (by decide)).1⟩

/-- C7: listing a session's results performs no existence check on the
session — it ignores the session table entirely, and both an unknown
session and an offset beyond the available rows yield the empty sequence
rather than an error. -/
theorem C7_list_results_no_existence_check (db : DB) (sid offset limit : Nat) :
    (∀ ss : List SessionRow,
      list_session_results { db with sessions := ss } sid offset limit =
        list_session_results db sid offset limit) ∧
    ((∀ r ∈ db.results, r.sessionId ≠ sid) →
      list_session_results db sid offset limit = some []) ∧
    ((db.results.filter fun r => r.sessionId == sid).length ≤ offset →
      list_session_results db sid offset limit = some []) := by
  refine ⟨fun ss => rfl, ?_, ?_⟩
  · intro h
    have hfil : (db.results.filter fun r => r.sessionId == sid) = [] := by
      rw [List.filter_eq_nil_iff]
      intro a ha
      simp [h a ha]
    simp only [list_session_results, hfil, sortByKeyDesc, List.drop_nil, List.take_nil]
    rfl
  · intro h
    have hlen : (sortByKeyDesc ResultRow.createdAt
        (db.results.filter fun r => r.sessionId == sid)).length ≤ offset := by
      rw [length_sortByKeyDesc]
      exact h
    have hdrop := List.drop_eq_nil_of_le hlen
    simp only [list_session_results, hdrop, List.take_nil]
    rfl

theorem C7_list_results_no_existence_check_witness :
    (∀ r ∈ wDB.results, r.sessionId ≠ 99) ∧
    list_session_results wDB 99 0 50 = some [] :=
  ⟨by decide, (C7_list_results_no_existence_check wDB 99 0 50).2.1 (by decide)⟩
